import Mathlib

/-!
Shallow embedding of the analyze-tiktok route of `tiktok-analytics-pro`.

JavaScript numbers are modelled as rationals (`ℚ`); the one place the code
can produce a non-finite value (an unguarded division) is modelled by the
type `JSNum`, which carries NaN and the two infinities explicitly.
`Number(x.toFixed(d))` is modelled by `toFixed d` (round half up at `d`
decimal places), and `x.toFixed(1)` as a string by `toFixedStr1`.
-/

namespace TiktokAnalytics

/-- A JavaScript number that may be NaN or infinite (result of dividing
rationals, including by zero). -/
inductive JSNum where
  | num (q : ℚ)
  | nan
  | posInf
  | negInf
deriving DecidableEq, Repr

/-- JavaScript division of two finite numbers: division by zero yields
NaN (for 0/0) or a signed infinity. -/
def jsDiv (a b : ℚ) : JSNum :=
  if b = 0 then
    if a = 0 then JSNum.nan
    else if a > 0 then JSNum.posInf
    else JSNum.negInf
  else JSNum.num (a / b)

/-- Model of `Number(x.toFixed(d))`: round to `d` decimal places. -/
def toFixed (d : Nat) (x : ℚ) : ℚ :=
  (round (x * 10 ^ d) : ℤ) / 10 ^ d

/-- Model of `x.toFixed(1)` as a string, for nonnegative `x`. -/
def toFixedStr1 (x : ℚ) : String :=
  let m : ℤ := round (x * 10)
  toString (m / 10) ++ "." ++ toString (m % 10)

/-- Model of the JavaScript `s || d` idiom on strings (empty string is falsy). -/
def jsOrStr (s d : String) : String :=
  if s = "" then d else s

/-- Model of `o || d` where `o` is a possibly-absent JSON string field. -/
def jsOr (o : Option String) (d : String) : String :=
  match o with
  | none => d
  | some s => if s = "" then d else s

/-- Model of `o || null` on a nullable string (empty string collapses to null). -/
def jsOrNull (o : Option String) : Option String :=
  match o with
  | none => none
  | some s => if s = "" then none else some s

/-- Model of `n || d` on numbers (0 is falsy). -/
def jsOrNat (n d : Nat) : Nat :=
  if n = 0 then d else n

/-- Helper for `String.includes`: does the second list occur at the head of
the first. -/
def listStartsWith : List Char → List Char → Bool
  | _, [] => true
  | [], _ :: _ => false
  | a :: s, b :: p => a == b && listStartsWith s p

/-- Helper for `String.includes`: does the second list occur anywhere in
the first. -/
def listHasSub : List Char → List Char → Bool
  | [], p => p.isEmpty
  | a :: s, p => listStartsWith (a :: s) p || listHasSub s p

/-- Model of JavaScript `s.includes(pat)`. -/
def jsIncludes (s pat : String) : Bool :=
  listHasSub s.toList pat.toList

/-- The URL guard of the handler: `!url || !url.includes('tiktok.com')`,
negated. -/
def validUrl (url : String) : Bool :=
  !url.isEmpty && jsIncludes url "tiktok.com"

/-- The normalized video record assembled by the acquisition pipeline
(`VideoData` in the source). Counters are nonnegative integers. -/
structure VideoData where
  title : String
  description : String
  thumbnail : Option String
  authorUsername : String
  authorUrl : String
  authorFollowers : Nat
  views : Nat
  likes : Nat
  comments : Nat
  shares : Nat
  saves : Nat
  hashtags : List String
deriving DecidableEq, Repr

/-- The JSON body of a successful oEmbed lookup; every field may be absent. -/
structure OembedData where
  title : Option String
  thumbnail_url : Option String
  author_name : Option String
  author_url : Option String
deriving DecidableEq, Repr

/-- The non-null result of `parseDetailedStats` (the scraping strategy):
these are exactly the fields that object supplies. -/
structure DetailedStats where
  views : Nat
  likes : Nat
  comments : Nat
  shares : Nat
  saves : Nat
  description : String
  authorUsername : String
  authorFollowers : Nat
  hashtags : List String
deriving DecidableEq, Repr

/-- The derived metrics record returned by `calculateMetrics`. -/
structure Metrics where
  engagementRate : ℚ
  viralScore : ℚ
  retentionRate : ℚ
  likesRatio : ℚ
  commentsRatio : ℚ
  sharesRatio : ℚ
  savesRatio : ℚ
  totalEngagements : ℚ
deriving DecidableEq, Repr

/-- One point of the synthetic retention curve. -/
structure RetentionPoint where
  timePercent : Nat
  retention : ℚ
deriving DecidableEq, Repr

/-- The classifier output (`SeoAnalysis` in the source). -/
structure SeoAnalysis where
  score : ℚ
  niche : String
  recommendations : List String
deriving DecidableEq, Repr

/-- The `stats.formatted` object of the response. -/
structure FormattedStats where
  views : String
  likes : String
  comments : String
  shares : String
  saves : String
deriving DecidableEq, Repr

/-- The `stats` section of the response. -/
structure StatsSection where
  views : Nat
  likes : Nat
  comments : Nat
  shares : Nat
  saves : Nat
  formatted : FormattedStats
deriving DecidableEq, Repr

/-- The `video.author` object of the response. -/
structure AuthorInfo where
  username : String
  followers : Nat
deriving DecidableEq, Repr

/-- The `video` section of the response. -/
structure VideoSection where
  url : String
  title : String
  description : String
  thumbnail : Option String
  author : AuthorInfo
  hashtags : List String
deriving DecidableEq, Repr

/-- The `retention` section of the response. -/
structure RetentionSection where
  curve : List RetentionPoint
  averageRetention : JSNum
deriving DecidableEq, Repr

/-- The `analysis` object of a successful response. -/
structure Analysis where
  id : Option String
  timestamp : String
  video : VideoSection
  stats : StatsSection
  metrics : Metrics
  seo : SeoAnalysis
  retention : RetentionSection
deriving DecidableEq, Repr

/-- The three response shapes the handler can produce: the 200 success
payload `{success: true, analysis}`, the 400 body `{error}`, and the 500
body `{error, details}`. -/
inductive Response where
  | ok (analysis : Analysis)
  | clientErr (error : String)
  | serverErr (details : String)
deriving DecidableEq, Repr

/-- HTTP status attached to each response shape. -/
def Response.status : Response → Nat
  | .ok _ => 200
  | .clientErr _ => 400
  | .serverErr _ => 500

/-- Whether the response body carries `success: true`. -/
def Response.isSuccess : Response → Bool
  | .ok _ => true
  | _ => false

/-- The upstream services the handler can contact. -/
inductive UpstreamCall where
  | oembed
  | scraping
  | classifier
  | datastore
deriving DecidableEq, Repr

/-- One request's environment and upstream outcomes: which strategies are
configured and what each external call would return. -/
structure Upstreams where
  oembed : Option OembedData
  scrapingbeeConfigured : Bool
  detailedStats : Option DetailedStats
  openaiConfigured : Bool
  seoResp : Option SeoAnalysis
  dbSaved : Option String
deriving DecidableEq, Repr

/-- The all-defaults record returned when the oEmbed call fails
(route.ts lines 147-160). -/
def defaultVideoData : VideoData :=
  { title := "Vidéo TikTok"
    description := ""
    thumbnail := none
    authorUsername := ""
    authorUrl := ""
    authorFollowers := 0
    views := 0
    likes := 0
    comments := 0
    shares := 0
    saves := 0
    hashtags := [] }

/-- `extractBasicData`: the oEmbed baseline strategy. On a successful
response it fills the descriptive fields and zeroes every counter; on any
failure it returns the all-defaults record. -/
def extractBasicData (o : Option OembedData) : VideoData :=
  match o with
  | some data =>
    { title := jsOr data.title "Titre non disponible"
      description := jsOr data.title ""
      thumbnail := jsOrNull data.thumbnail_url
      authorUsername := jsOr data.author_name ""
      authorUrl := jsOr data.author_url ""
      authorFollowers := 0
      views := 0
      likes := 0
      comments := 0
      shares := 0
      saves := 0
      hashtags := [] }
  | none => defaultVideoData

/-- The spread merge `{ ...videoData, ...detailedStats }`: every field the
scraping strategy supplies overwrites the baseline, the rest keep the
baseline values. -/
def mergeDetailed (v : VideoData) (d : DetailedStats) : VideoData :=
  { v with
    views := d.views
    likes := d.likes
    comments := d.comments
    shares := d.shares
    saves := d.saves
    description := d.description
    authorUsername := d.authorUsername
    authorFollowers := d.authorFollowers
    hashtags := d.hashtags }

/-- Steps 1-2 of the handler: oEmbed baseline, then the scraping strategy
when configured and successful. -/
def acquireVideoData (up : Upstreams) : VideoData :=
  let videoData := extractBasicData up.oembed
  if up.scrapingbeeConfigured then
    match up.detailedStats with
    | some detailedStats => mergeDetailed videoData detailedStats
    | none => videoData
  else videoData

/-- `analyzeSEO`: static fallback without a key, parsed upstream result or
the error fallback with one. -/
def analyzeSEO (openaiConfigured : Bool) (resp : Option SeoAnalysis) : SeoAnalysis :=
  if openaiConfigured then
    match resp with
    | some result => result
    | none => { score := 50, niche := "Non déterminée", recommendations := ["Erreur analyse IA"] }
  else
    { score := 50
      niche := "Non déterminée"
      recommendations := ["Configurez OpenAI pour une analyse complète"] }

/-- The all-zero metrics record returned when `views === 0`
(route.ts lines 294-305). -/
def zeroMetrics : Metrics :=
  { engagementRate := 0
    viralScore := 0
    retentionRate := 0
    likesRatio := 0
    commentsRatio := 0
    sharesRatio := 0
    savesRatio := 0
    totalEngagements := 0 }

/-- `calculateMetrics` (route.ts lines 287-329). -/
def calculateMetrics (videoData : VideoData) : Metrics :=
  let views := jsOrNat videoData.views 0
  let likes := jsOrNat videoData.likes 0
  let comments := jsOrNat videoData.comments 0
  let shares := jsOrNat videoData.shares 0
  let saves := jsOrNat videoData.saves 0
  if views = 0 then zeroMetrics
  else
    let totalEngagements : ℚ := (likes : ℚ) + comments + shares + saves
    let engagementRate : ℚ := totalEngagements / views * 100
    let viralScore : ℚ := 50 +
      (if engagementRate > 15 then 30
       else if engagementRate > 10 then 20
       else if engagementRate > 5 then 10
       else 0) +
      (if views > 1000000 then 20
       else if views > 100000 then 10
       else 0)
    { engagementRate := toFixed 2 engagementRate
      viralScore := min 100 viralScore
      retentionRate := toFixed 1 (min 90 (engagementRate * 4))
      likesRatio := toFixed 2 ((likes : ℚ) / views * 100)
      commentsRatio := toFixed 2 ((comments : ℚ) / views * 100)
      sharesRatio := toFixed 2 ((shares : ℚ) / views * 100)
      savesRatio := toFixed 2 ((saves : ℚ) / views * 100)
      totalEngagements := totalEngagements }

/-- `Math.max(30, Math.min(85, metrics.engagementRate * 5))`. -/
def baseRetention (metrics : Metrics) : ℚ :=
  max 30 (min 85 (metrics.engagementRate * 5))

/-- `generateRetentionCurve` (route.ts lines 331-344): eleven points for
`i = 0, 10, ..., 100`. -/
def generateRetentionCurve (metrics : Metrics) : List RetentionPoint :=
  (List.range 11).map fun k =>
    let retention : ℚ := baseRetention metrics * (1 - (((10 * k : Nat) : ℚ) / 100) * (6 / 10))
    { timePercent := 10 * k
      retention := toFixed 1 (max 10 retention) }

/-- The fold `curve.reduce((sum, point) => sum + point.retention, 0)`. -/
def sumRetention (curve : List RetentionPoint) : ℚ :=
  curve.foldl (fun sum point => sum + point.retention) 0

/-- The assembler expression
`curve.reduce((sum, point) => sum + point.retention, 0) / curve.length`:
an unguarded JavaScript division. -/
def averageRetention (curve : List RetentionPoint) : JSNum :=
  jsDiv (sumRetention curve) (curve.length : ℚ)

/-- `formatNumber` (route.ts lines 383-388). -/
def formatNumber (num : Nat) : String :=
  if num ≥ 1000000000 then toFixedStr1 ((num : ℚ) / 1000000000) ++ "B"
  else if num ≥ 1000000 then toFixedStr1 ((num : ℚ) / 1000000) ++ "M"
  else if num ≥ 1000 then toFixedStr1 ((num : ℚ) / 1000) ++ "K"
  else toString num

/-- Step 7 of the handler: the response assembler (route.ts lines 54-105). -/
def assemble (url now : String) (savedId : Option String) (videoData : VideoData)
    (metrics : Metrics) (seo : SeoAnalysis) (retentionCurve : List RetentionPoint) :
    Analysis :=
  { id := savedId
    timestamp := now
    video :=
      { url := url
        title := jsOrStr videoData.title "Titre non disponible"
        description := jsOrStr videoData.description ""
        thumbnail := jsOrNull videoData.thumbnail
        author :=
          { username := jsOrStr videoData.authorUsername ""
            followers := jsOrNat videoData.authorFollowers 0 }
        hashtags := videoData.hashtags }
    stats :=
      { views := jsOrNat videoData.views 0
        likes := jsOrNat videoData.likes 0
        comments := jsOrNat videoData.comments 0
        shares := jsOrNat videoData.shares 0
        saves := jsOrNat videoData.saves 0
        formatted :=
          { views := formatNumber (jsOrNat videoData.views 0)
            likes := formatNumber (jsOrNat videoData.likes 0)
            comments := formatNumber (jsOrNat videoData.comments 0)
            shares := formatNumber (jsOrNat videoData.shares 0)
            saves := formatNumber (jsOrNat videoData.saves 0) } }
    metrics := metrics
    seo := seo
    retention :=
      { curve := retentionCurve
        averageRetention := averageRetention retentionCurve } }

/-- The `POST` handler (route.ts lines 10-117), as a function of the request
URL, the environment/upstream outcomes, and the current timestamp. The
second component records which upstream services were contacted, in order. -/
def POST (url : String) (up : Upstreams) (now : String) :
    Response × List UpstreamCall :=
  if !(validUrl url) then
    (Response.clientErr "URL TikTok invalide", [])
  else
    let videoData := acquireVideoData up
    let scrapeCalls := if up.scrapingbeeConfigured then [UpstreamCall.scraping] else []
    let seoAnalysis := analyzeSEO up.openaiConfigured up.seoResp
    let seoCalls := if up.openaiConfigured then [UpstreamCall.classifier] else []
    let metrics := calculateMetrics videoData
    let retentionCurve := generateRetentionCurve metrics
    let analysis := assemble url now up.dbSaved videoData metrics seoAnalysis retentionCurve
    (Response.ok analysis,
     [UpstreamCall.oembed] ++ scrapeCalls ++ seoCalls ++ [UpstreamCall.datastore])

/-! The official-API route variant (`fetchOfficialTiktokData`). -/

/-- The two credentials the official-API strategy reads from the
environment. -/
structure OfficialEnv where
  TIKTOK_CLIENT_KEY : Option String
  TIKTOK_CLIENT_SECRET : Option String
deriving DecidableEq, Repr

/-- JavaScript falsiness of a possibly-absent environment variable
(absent or empty string). -/
def jsFalsyOpt (o : Option String) : Bool :=
  match o with
  | none => true
  | some s => s.isEmpty

/-- The slimmer `VideoData` of the official-API variant (no saves, no
author follower count). -/
structure VideoDataO where
  title : String
  description : String
  thumbnail : Option String
  authorUsername : String
  views : Nat
  likes : Nat
  comments : Nat
  shares : Nat
  hashtags : List String
deriving DecidableEq, Repr

/-- The metrics record of the official-API variant. -/
structure MetricsO where
  engagementRate : ℚ
  likesRatio : ℚ
  commentsRatio : ℚ
  sharesRatio : ℚ
  totalEngagements : ℚ
deriving DecidableEq, Repr

/-- `calculateMetrics` of the official-API variant (no saves counter). -/
def calculateMetricsO (videoData : VideoDataO) : MetricsO :=
  let views := videoData.views
  let likes := videoData.likes
  let comments := videoData.comments
  let shares := videoData.shares
  if views = 0 then
    { engagementRate := 0, likesRatio := 0, commentsRatio := 0
      sharesRatio := 0, totalEngagements := 0 }
  else
    let totalEngagements : ℚ := (likes : ℚ) + comments + shares
    let engagementRate : ℚ := totalEngagements / views * 100
    { engagementRate := toFixed 2 engagementRate
      likesRatio := toFixed 2 ((likes : ℚ) / views * 100)
      commentsRatio := toFixed 2 ((comments : ℚ) / views * 100)
      sharesRatio := toFixed 2 ((shares : ℚ) / views * 100)
      totalEngagements := totalEngagements }

/-- The hard-coded record the stubbed official API call currently returns. -/
def MOCK_API_RESPONSE : VideoDataO :=
  { title := "Titre obtenu via API Officielle"
    description := "Description de la vidéo, autorisée et fournie par TikTok."
    thumbnail := some "https://p16-sign-va.tiktokcdn.com/tos-maliva-avt-0068/e9d6e495910398a6c8433c4611c7501a~c5_720x720.jpeg"
    authorUsername := "auteur_officiel"
    views := 2500000
    likes := 210000
    comments := 4500
    shares := 8000
    hashtags := ["api", "officielle", "tiktok"] }

/-- `fetchOfficialTiktokData`: throws (`Except.error`) when either
credential is falsy, otherwise returns data (currently the stub); its
inner catch would yield `none`. -/
def fetchOfficialTiktokData (env : OfficialEnv) : Except String (Option VideoDataO) :=
  if jsFalsyOpt env.TIKTOK_CLIENT_KEY || jsFalsyOpt env.TIKTOK_CLIENT_SECRET then
    Except.error "Configuration API manquante."
  else
    Except.ok (some MOCK_API_RESPONSE)

/-- The `analysis` object of the official-API variant's success response. -/
structure AnalysisO where
  id : Option String
  timestamp : String
  url : String
  title : String
  description : String
  thumbnail : Option String
  authorUsername : String
  hashtags : List String
  views : Nat
  likes : Nat
  comments : Nat
  shares : Nat
  formattedViews : String
  formattedLikes : String
  formattedComments : String
  formattedShares : String
  metrics : MetricsO
deriving DecidableEq, Repr

/-- The response shapes of the official-API variant: 200 success, the 400
invalid-URL body, the 500 no-data body, and the catch-all 500 body whose
details carry the thrown message. -/
inductive OfficialResult where
  | success (analysis : AnalysisO)
  | invalidUrl
  | apiUnavailable
  | serverError (details : String)
deriving DecidableEq, Repr

/-- HTTP status of each official-variant response shape. -/
def OfficialResult.status : OfficialResult → Nat
  | .success _ => 200
  | .invalidUrl => 400
  | .apiUnavailable => 500
  | .serverError _ => 500

/-- The `POST` handler of the official-API route variant. -/
def postOfficial (url : String) (env : OfficialEnv) (dbSaved : Option String)
    (now : String) : OfficialResult :=
  if !(validUrl url) then OfficialResult.invalidUrl
  else
    match fetchOfficialTiktokData env with
    | Except.error msg => OfficialResult.serverError msg
    | Except.ok none => OfficialResult.apiUnavailable
    | Except.ok (some videoData) =>
      let metrics := calculateMetricsO videoData
      OfficialResult.success
        { id := dbSaved
          timestamp := now
          url := url
          title := videoData.title
          description := videoData.description
          thumbnail := videoData.thumbnail
          authorUsername := videoData.authorUsername
          hashtags := videoData.hashtags
          views := videoData.views
          likes := videoData.likes
          comments := videoData.comments
          shares := videoData.shares
          formattedViews := formatNumber videoData.views
          formattedLikes := formatNumber videoData.likes
          formattedComments := formatNumber videoData.comments
          formattedShares := formatNumber videoData.shares
          metrics := metrics }

/-! Helper lemmas. -/

theorem jsOrNat_zero (n : Nat) : jsOrNat n 0 = n := by
  by_cases h : n = 0 <;> simp [jsOrNat, h]

theorem jsOrStr_empty (s : String) : jsOrStr s "" = s := by
  by_cases h : s = "" <;> simp [jsOrStr, h]

theorem round_mono_rat {x y : ℚ} (h : x ≤ y) : round x ≤ round y := by
  rw [round_eq, round_eq]
  exact Int.floor_mono (by linarith)

theorem toFixed_mono (d : Nat) {x y : ℚ} (h : x ≤ y) : toFixed d x ≤ toFixed d y := by
  unfold toFixed
  have hp : (0 : ℚ) < 10 ^ d := by positivity
  refine (div_le_div_iff_of_pos_right hp).mpr ?_
  exact_mod_cast round_mono_rat (mul_le_mul_of_nonneg_right h (le_of_lt hp))

theorem toFixed_one_ge_ten {x : ℚ} (h : 10 ≤ x) : 10 ≤ toFixed 1 x := by
  have h1 : ((100 : ℤ) : ℚ) ≤ x * 10 ^ 1 := by push_cast; nlinarith
  have h2 : (100 : ℤ) ≤ round (x * 10 ^ 1) := by
    calc (100 : ℤ) = round ((100 : ℤ) : ℚ) := (round_intCast 100).symm
    _ ≤ round (x * 10 ^ 1) := round_mono_rat h1
  unfold toFixed
  rw [le_div_iff₀ (by positivity)]
  have h3 : ((100 : ℤ) : ℚ) ≤ (round (x * 10 ^ 1) : ℚ) := by exact_mod_cast h2
  push_cast at h3 ⊢
  nlinarith

/-- A concrete all-defaults upstream environment: every strategy fails or
is disabled, and the datastore insert fails. -/
def up0 : Upstreams :=
  { oembed := none
    scrapingbeeConfigured := false
    detailedStats := none
    openaiConfigured := false
    seoResp := none
    dbSaved := none }

/-! Claim theorems. -/

/-- Claim C1: for every counter set with `views = 0`, `calculateMetrics`
returns the all-zero metrics record regardless of likes, comments, shares
and saves, and no division by zero occurs (the zero branch returns before
any division). -/
theorem calculateMetrics_zero_views (v : VideoData) (h : v.views = 0) :
    calculateMetrics v =
      { engagementRate := 0, viralScore := 0, retentionRate := 0, likesRatio := 0
        commentsRatio := 0, sharesRatio := 0, savesRatio := 0, totalEngagements := 0 } := by
  simp [calculateMetrics, jsOrNat, h, zeroMetrics]

/-- Witness for C1 at a concrete input with nonzero engagement counters. -/
theorem calculateMetrics_zero_views_witness :
    calculateMetrics
        { defaultVideoData with likes := 999999, comments := 123, shares := 45, saves := 6 } =
      { engagementRate := 0, viralScore := 0, retentionRate := 0, likesRatio := 0
        commentsRatio := 0, sharesRatio := 0, savesRatio := 0, totalEngagements := 0 } :=
  calculateMetrics_zero_views _ rfl

/-- Claim C7: the worked example. For views=1000, likes=100, comments=50,
shares=30, saves=20, `calculateMetrics` returns engagementRate=20.00,
viralScore=80, retentionRate=80.0, likesRatio=10.00, commentsRatio=5.00,
sharesRatio=3.00, savesRatio=2.00 and totalEngagements=200. -/
theorem calculateMetrics_worked_example :
    calculateMetrics
        { title := "t", description := "", thumbnail := none, authorUsername := ""
          authorUrl := "", authorFollowers := 0
          views := 1000, likes := 100, comments := 50, shares := 30, saves := 20
          hashtags := [] } =
      { engagementRate := 20, viralScore := 80, retentionRate := 80, likesRatio := 10
        commentsRatio := 5, sharesRatio := 3, savesRatio := 2, totalEngagements := 200 } := by
  simp only [calculateMetrics, jsOrNat, toFixed, round_eq]
  norm_num

/-- Claim C3: a request whose url is empty or lacks the substring
`tiktok.com` gets the 400 client-error response with an error field, and
no upstream service is contacted (the call list is empty). -/
theorem invalid_url_rejected (url : String) (up : Upstreams) (now : String)
    (h : url = "" ∨ jsIncludes url "tiktok.com" = false) :
    POST url up now = (Response.clientErr "URL TikTok invalide", []) ∧
    (POST url up now).1.status = 400 := by
  have hv : validUrl url = false := by
    rcases h with h | h
    · subst h; decide
    · simp [validUrl, h]
  constructor
  · simp [POST, hv]
  · simp [POST, hv, Response.status]

/-- Witness for C3 at a concrete non-platform URL. -/
theorem invalid_url_rejected_witness :
    POST "http://example.com/v" up0 "t" = (Response.clientErr "URL TikTok invalide", []) ∧
    (POST "http://example.com/v" up0 "t").1.status = 400 :=
  invalid_url_rejected "http://example.com/v" up0 "t" (Or.inr (by decide))

/-- Claim C5: in the official-API strategy, a missing (or empty) client
key or client secret aborts the whole request with the 500 server-error
response carrying the thrown configuration message; the result is never
the success shape, so there is no fallback to another strategy or to
defaulted data. -/
theorem official_missing_credentials_aborts (url now : String) (env : OfficialEnv)
    (dbSaved : Option String) (hurl : validUrl url = true)
    (hmiss : jsFalsyOpt env.TIKTOK_CLIENT_KEY = true ∨
      jsFalsyOpt env.TIKTOK_CLIENT_SECRET = true) :
    postOfficial url env dbSaved now = OfficialResult.serverError "Configuration API manquante." ∧
    (postOfficial url env dbSaved now).status = 500 ∧
    ∀ a, postOfficial url env dbSaved now ≠ OfficialResult.success a := by
  have hf : fetchOfficialTiktokData env = Except.error "Configuration API manquante." := by
    rcases hmiss with h | h <;> simp [fetchOfficialTiktokData, h]
  refine ⟨?_, ?_, ?_⟩ <;> simp [postOfficial, hurl, hf, OfficialResult.status]

/-- Witness for C5: a missing client key with a valid URL yields the 500
configuration error. -/
theorem official_missing_credentials_aborts_witness :
    postOfficial "https://www.tiktok.com/@u/video/1"
        { TIKTOK_CLIENT_KEY := none, TIKTOK_CLIENT_SECRET := some "s" } none "t" =
      OfficialResult.serverError "Configuration API manquante." :=
  (official_missing_credentials_aborts "https://www.tiktok.com/@u/video/1" "t"
    { TIKTOK_CLIENT_KEY := none, TIKTOK_CLIENT_SECRET := some "s" } none
    (by decide) (Or.inl rfl)).1

/-- Claim C2: when every optional acquisition strategy fails or is
disabled (oEmbed failed, scraping unconfigured or returning no data), the
acquirer still yields the structurally complete all-defaults record with
every counter equal to 0, and the handler still answers with the
`success = true` response whose stats are all 0. -/
theorem all_strategies_fail_zero_record (url now : String) (up : Upstreams)
    (hurl : validUrl url = true)
    (hoembed : up.oembed = none)
    (hscrape : up.scrapingbeeConfigured = false ∨ up.detailedStats = none) :
    acquireVideoData up = defaultVideoData ∧
    ∃ a, (POST url up now).1 = Response.ok a ∧
      a.stats.views = 0 ∧ a.stats.likes = 0 ∧ a.stats.comments = 0 ∧
      a.stats.shares = 0 ∧ a.stats.saves = 0 ∧
      (POST url up now).1.isSuccess = true := by
  have hacq : acquireVideoData up = defaultVideoData := by
    rcases hscrape with h | h <;>
      simp [acquireVideoData, extractBasicData, hoembed, h]
  have hpost : (POST url up now).1 =
      Response.ok (assemble url now up.dbSaved defaultVideoData
        (calculateMetrics defaultVideoData)
        (analyzeSEO up.openaiConfigured up.seoResp)
        (generateRetentionCurve (calculateMetrics defaultVideoData))) := by
    simp [POST, hurl, hacq]
  refine ⟨hacq, _, hpost, rfl, rfl, rfl, rfl, rfl, ?_⟩
  rw [hpost]; rfl

/-- Witness for C2: all strategies failing in a concrete environment. -/
theorem all_strategies_fail_zero_record_witness :
    acquireVideoData up0 = defaultVideoData ∧
    ∃ a, (POST "https://www.tiktok.com/@u/video/1" up0 "t").1 = Response.ok a ∧
      a.stats.views = 0 ∧ a.stats.likes = 0 ∧ a.stats.comments = 0 ∧
      a.stats.shares = 0 ∧ a.stats.saves = 0 ∧
      (POST "https://www.tiktok.com/@u/video/1" up0 "t").1.isSuccess = true :=
  all_strategies_fail_zero_record "https://www.tiktok.com/@u/video/1" "t" up0
    (by decide) rfl (Or.inl rfl)

/-- Claim C4: for a request that otherwise succeeds, a persistence-sink
failure (`saveToDatabase` yielding no record) does not change the
HTTP-level outcome: the handler still returns the success response and
only the analysis id becomes absent. -/
theorem db_failure_preserves_outcome (url now : String) (up : Upstreams)
    (hurl : validUrl url = true) :
    ∃ a, (POST url up now).1 = Response.ok a ∧
      (POST url { up with dbSaved := none } now).1 = Response.ok { a with id := none } := by
  refine ⟨assemble url now up.dbSaved (acquireVideoData up)
    (calculateMetrics (acquireVideoData up))
    (analyzeSEO up.openaiConfigured up.seoResp)
    (generateRetentionCurve (calculateMetrics (acquireVideoData up))), ?_, ?_⟩
  · simp [POST, hurl]
  · simp [POST, hurl]
    rfl

/-- Witness for C4 at a concrete request with a successful datastore. -/
theorem db_failure_preserves_outcome_witness :
    ∃ a, (POST "https://www.tiktok.com/@u/video/1"
        { up0 with dbSaved := some "row-1" } "t").1 = Response.ok a ∧
      (POST "https://www.tiktok.com/@u/video/1"
        { { up0 with dbSaved := some "row-1" } with dbSaved := none } "t").1 =
        Response.ok { a with id := none } :=
  db_failure_preserves_outcome "https://www.tiktok.com/@u/video/1" "t"
    { up0 with dbSaved := some "row-1" } (by decide)

/-- Claim C9: the merge of acquisition results is a field-by-field shallow
overwrite. When the scraping strategy succeeds, every field it supplies
(counters, description, author username and followers, hashtags)
overwrites the oEmbed baseline in the final response, the fields it does
not supply (title, thumbnail) keep the baseline values, and the hashtags
list reaches the final response unchanged and in the same order. -/
theorem merge_shallow_hashtags_roundtrip (url now : String) (up : Upstreams)
    (d : DetailedStats)
    (hurl : validUrl url = true) (hconf : up.scrapingbeeConfigured = true)
    (hd : up.detailedStats = some d) :
    ∃ a, (POST url up now).1 = Response.ok a ∧
      a.video.hashtags = d.hashtags ∧
      a.stats.views = d.views ∧ a.stats.likes = d.likes ∧
      a.stats.comments = d.comments ∧ a.stats.shares = d.shares ∧
      a.stats.saves = d.saves ∧
      a.video.description = d.description ∧
      a.video.author.username = d.authorUsername ∧
      a.video.author.followers = d.authorFollowers ∧
      a.video.title = jsOrStr (extractBasicData up.oembed).title "Titre non disponible" ∧
      a.video.thumbnail = jsOrNull (extractBasicData up.oembed).thumbnail := by
  have hacq : acquireVideoData up = mergeDetailed (extractBasicData up.oembed) d := by
    simp [acquireVideoData, hconf, hd]
  have hpost : (POST url up now).1 =
      Response.ok (assemble url now up.dbSaved (mergeDetailed (extractBasicData up.oembed) d)
        (calculateMetrics (mergeDetailed (extractBasicData up.oembed) d))
        (analyzeSEO up.openaiConfigured up.seoResp)
        (generateRetentionCurve (calculateMetrics (mergeDetailed (extractBasicData up.oembed) d)))) := by
    simp [POST, hurl, hacq]
  refine ⟨_, hpost, ?_, ?_, ?_, ?_, ?_, ?_, ?_, ?_, ?_, ?_, ?_⟩ <;>
    simp [assemble, mergeDetailed, jsOrNat_zero, jsOrStr_empty]

/-- A concrete scraping result used by the C9 witness. -/
def dStats : DetailedStats :=
  { views := 5000, likes := 250, comments := 10, shares := 5, saves := 2
    description := "a dance video", authorUsername := "bob", authorFollowers := 777
    hashtags := ["fyp", "dance", "fyp"] }

/-- A concrete upstream environment in which oEmbed and scraping both
succeed. -/
def upScrape : Upstreams :=
  { oembed := some { title := some "Hello", thumbnail_url := some "http://thumb"
                     author_name := some "alice", author_url := none }
    scrapingbeeConfigured := true
    detailedStats := some dStats
    openaiConfigured := false
    seoResp := none
    dbSaved := some "42" }

/-- Witness for C9 at a concrete merged acquisition. -/
theorem merge_shallow_hashtags_roundtrip_witness :
    ∃ a, (POST "https://www.tiktok.com/@u/video/1" upScrape "t").1 = Response.ok a ∧
      a.video.hashtags = dStats.hashtags ∧
      a.stats.views = dStats.views ∧ a.stats.likes = dStats.likes ∧
      a.stats.comments = dStats.comments ∧ a.stats.shares = dStats.shares ∧
      a.stats.saves = dStats.saves ∧
      a.video.description = dStats.description ∧
      a.video.author.username = dStats.authorUsername ∧
      a.video.author.followers = dStats.authorFollowers ∧
      a.video.title = jsOrStr (extractBasicData upScrape.oembed).title "Titre non disponible" ∧
      a.video.thumbnail = jsOrNull (extractBasicData upScrape.oembed).thumbnail :=
  merge_shallow_hashtags_roundtrip "https://www.tiktok.com/@u/video/1" "t" upScrape dStats
    (by decide) rfl rfl

/-- Claim C10: every success response contains a `stats.formatted` object
in which each counter `n` is rendered by `formatNumber`, and
`formatNumber` renders `n ≥ 10^9` as `(n/10^9).toFixed(1) + "B"`, then
`n ≥ 10^6` as `(n/10^6).toFixed(1) + "M"`, then `n ≥ 10^3` as
`(n/10^3).toFixed(1) + "K"`, and otherwise as the decimal string of `n`. -/
theorem formatted_stats_formatNumber (url now : String) (up : Upstreams)
    (hurl : validUrl url = true) :
    (∃ a, (POST url up now).1 = Response.ok a ∧
      a.stats.formatted.views = formatNumber a.stats.views ∧
      a.stats.formatted.likes = formatNumber a.stats.likes ∧
      a.stats.formatted.comments = formatNumber a.stats.comments ∧
      a.stats.formatted.shares = formatNumber a.stats.shares ∧
      a.stats.formatted.saves = formatNumber a.stats.saves) ∧
    (∀ n : Nat, 1000000000 ≤ n → formatNumber n = toFixedStr1 ((n : ℚ) / 1000000000) ++ "B") ∧
    (∀ n : Nat, n < 1000000000 → 1000000 ≤ n →
      formatNumber n = toFixedStr1 ((n : ℚ) / 1000000) ++ "M") ∧
    (∀ n : Nat, n < 1000000 → 1000 ≤ n →
      formatNumber n = toFixedStr1 ((n : ℚ) / 1000) ++ "K") ∧
    (∀ n : Nat, n < 1000 → formatNumber n = toString n) := by
  refine ⟨⟨assemble url now up.dbSaved (acquireVideoData up)
      (calculateMetrics (acquireVideoData up))
      (analyzeSEO up.openaiConfigured up.seoResp)
      (generateRetentionCurve (calculateMetrics (acquireVideoData up))),
      by simp [POST, hurl], rfl, rfl, rfl, rfl, rfl⟩, ?_, ?_, ?_, ?_⟩
  · intro n h; simp [formatNumber, h]
  · intro n h1 h2
    have hb : ¬ n ≥ 1000000000 := by omega
    simp [formatNumber, hb, h2]
  · intro n h1 h2
    have hb : ¬ n ≥ 1000000000 := by omega
    have hm : ¬ n ≥ 1000000 := by omega
    simp [formatNumber, hb, hm, h2]
  · intro n h
    have h1 : ¬ n ≥ 1000000000 := by omega
    have h2 : ¬ n ≥ 1000000 := by omega
    have h3 : ¬ n ≥ 1000 := by omega
    simp [formatNumber, h1, h2, h3]

/-- Witness for C10: the formatted K tier at a concrete input. -/
theorem formatted_stats_formatNumber_witness :
    formatNumber 1500 = toFixedStr1 ((1500 : ℚ) / 1000) ++ "K" :=
  (formatted_stats_formatNumber "https://www.tiktok.com/@u/video/1" "t" up0
    (by decide)).2.2.2.1 1500 (by omega) (by omega)

/-- Closed form of the k-th point of the retention curve. -/
theorem generateRetentionCurve_get (m : Metrics) (k : Nat)
    (hk : k < (generateRetentionCurve m).length) :
    (generateRetentionCurve m).get ⟨k, hk⟩ =
      { timePercent := 10 * k
        retention := toFixed 1 (max 10 (baseRetention m *
          (1 - (((10 * k : Nat) : ℚ) / 100) * (6 / 10)))) } := by
  simp [generateRetentionCurve, List.get_eq_getElem]

/-- Closed form of the last point of the retention curve. -/
theorem generateRetentionCurve_getLast (m : Metrics) :
    (generateRetentionCurve m).getLast? =
      some { timePercent := 100
             retention := toFixed 1 (max 10 (baseRetention m * (4 / 10))) } := by
  have h : List.range 11 = List.range 10 ++ [10] := List.range_succ 10
  rw [generateRetentionCurve, h, List.map_append, List.map_singleton, List.getLast?_concat]
  norm_num

/-- A metrics record with a prescribed engagement rate and all other
fields zero; `generateRetentionCurve` reads only the engagement rate. -/
def metricsWithRate (er : ℚ) : Metrics :=
  { zeroMetrics with engagementRate := er }

/-- Counterexample for claim C6: at engagementRate = 10.01 the last point
of the curve is 20 (the code rounds `baseRetention * 0.4 = 20.02` to one
decimal), so the last value does not equal the unrounded
`max(10, baseRetention * 0.4) = 20.02` the claim states. -/
theorem generateRetentionCurve_last_unrounded_false :
    ((generateRetentionCurve (metricsWithRate (1001 / 100))).getLast?).map
      RetentionPoint.retention = some 20 ∧
    max 10 (baseRetention (metricsWithRate (1001 / 100)) * (4 / 10)) = 1001 / 50 ∧
    (20 : ℚ) ≠ 1001 / 50 := by
  have hb : baseRetention (metricsWithRate (1001 / 100)) = 1001 / 20 := by
    simp [baseRetention, metricsWithRate, zeroMetrics, max_def, min_def]
    norm_num
  refine ⟨?_, ?_, by norm_num⟩
  · rw [generateRetentionCurve_getLast]
    simp [hb, toFixed, round_eq, max_def]
    norm_num
  · rw [hb]; norm_num

/-- Claim C6 as amended: for every metrics input the curve has exactly 11
points at timePercent 0,10,...,100 in order; with
`baseRetention = clamp(engagementRate*5, 30, 85)` each point's retention is
`max(10, baseRetention * (1 - 0.6*i/100))` rounded to 1 decimal; values
are non-increasing; every value is at least 10; and the last value equals
`max(10, baseRetention*0.4)` rounded to 1 decimal. -/
theorem generateRetentionCurve_spec (m : Metrics) :
    (generateRetentionCurve m).length = 11 ∧
    (∀ k (hk : k < (generateRetentionCurve m).length),
      ((generateRetentionCurve m).get ⟨k, hk⟩).timePercent = 10 * k ∧
      ((generateRetentionCurve m).get ⟨k, hk⟩).retention =
        toFixed 1 (max 10 (baseRetention m * (1 - (((10 * k : Nat) : ℚ) / 100) * (6 / 10))))) ∧
    (∀ i j (hi : i < (generateRetentionCurve m).length)
        (hj : j < (generateRetentionCurve m).length), i ≤ j →
      ((generateRetentionCurve m).get ⟨j, hj⟩).retention ≤
        ((generateRetentionCurve m).get ⟨i, hi⟩).retention) ∧
    (∀ p ∈ generateRetentionCurve m, (10 : ℚ) ≤ p.retention) ∧
    (generateRetentionCurve m).getLast? =
      some { timePercent := 100
             retention := toFixed 1 (max 10 (baseRetention m * (4 / 10))) } := by
  have hB : (0 : ℚ) ≤ baseRetention m :=
    le_trans (by norm_num) (le_max_left 30 (min 85 (m.engagementRate * 5)))
  refine ⟨by simp [generateRetentionCurve], ?_, ?_, ?_, generateRetentionCurve_getLast m⟩
  · intro k hk
    rw [generateRetentionCurve_get]
    exact ⟨rfl, rfl⟩
  · intro i j hi hj hij
    rw [generateRetentionCurve_get, generateRetentionCurve_get]
    apply toFixed_mono
    apply max_le_max le_rfl
    apply mul_le_mul_of_nonneg_left ?_ hB
    have hij2 : (i : ℚ) ≤ (j : ℚ) := by exact_mod_cast hij
    push_cast
    linarith
  · intro p hp
    simp [generateRetentionCurve] at hp
    obtain ⟨k, hk, rfl⟩ := hp
    exact toFixed_one_ge_ten (le_max_left _ _)

/-- Witness for the amended C6: the non-increasing property between the
first and last point at a concrete metrics input. -/
theorem generateRetentionCurve_spec_witness :
    ((generateRetentionCurve zeroMetrics).get
        ⟨10, by simp [generateRetentionCurve]⟩).retention ≤
      ((generateRetentionCurve zeroMetrics).get
        ⟨0, by simp [generateRetentionCurve]⟩).retention :=
  (generateRetentionCurve_spec zeroMetrics).2.2.1 0 10
    (by simp [generateRetentionCurve]) (by simp [generateRetentionCurve]) (by omega)

/-- Counterexample for claim C8: the assembler's division is not guarded,
so over an empty curve `averageRetention` is NaN (JavaScript 0/0), not 0. -/
theorem averageRetention_empty_nan :
    averageRetention [] = JSNum.nan ∧ JSNum.nan ≠ JSNum.num 0 := by
  constructor
  · simp [averageRetention, sumRetention, jsDiv]
  · simp

/-- Claim C8 as amended: for a non-empty curve `averageRetention` is the
arithmetic mean of the retention values; the empty case is never reached
because the curve handed to the assembler always has 11 points (the
unguarded division would give NaN there, not 0). -/
theorem averageRetention_nonempty_mean :
    (∀ curve : List RetentionPoint, curve ≠ [] →
      averageRetention curve = JSNum.num (sumRetention curve / (curve.length : ℚ))) ∧
    (∀ m : Metrics, (generateRetentionCurve m).length = 11) := by
  constructor
  · intro c hc
    have hlen : (c.length : ℚ) ≠ 0 := by simpa using hc
    simp [averageRetention, jsDiv, hlen]
  · intro m; simp [generateRetentionCurve]

/-- Witness for the amended C8 at a concrete one-point curve. -/
theorem averageRetention_nonempty_mean_witness :
    averageRetention [{ timePercent := 0, retention := 50 }] = JSNum.num 50 := by
  have h := averageRetention_nonempty_mean.1 [{ timePercent := 0, retention := 50 }] (by simp)
  rw [h]
  simp [sumRetention]

end TiktokAnalytics
